import Mathlib

/-!
# Verification of the dico voice control channel (src/dico/voice/websocket.py)

A shallow embedding of `VoiceWebsocket` from `src/dico/voice/websocket.py`.
Async methods become state-transition functions returning `Except PyError`
(Python exceptions) together with a list of observable effects (frames sent
on the WebSocket, log lines, task creations, socket operations).  Timestamps
(`time.time()` samples) are passed in explicitly as `Nat` ticks.
-/

namespace Dico

/-- Python exceptions that the embedded code can raise. -/
inductive PyError
  | attributeError     -- attribute access on None
  | keyError           -- dict lookup of a missing key
  | indexError         -- `[...][0]` on an empty list
  | typeError          -- iterating over None
  | connectionReset    -- aiohttp send on a closed/closing websocket
  deriving DecidableEq, Repr

/-- Modelled from the spec: the voice opcodes (`VoiceOpcodes` lives in a model
file not present under src/; §6 of the spec lists the opcode names used by the
voice control channel). -/
inductive VoiceOpcode
  | IDENTIFY | SELECT_PROTOCOL | READY | HEARTBEAT | SESSION_DESCRIPTION
  | SPEAKING | HEARTBEAT_ACK | RESUME | HELLO
  deriving DecidableEq, Repr

/-- The fields of the `d` payload of an inbound voice gateway message, as read
by `VoiceWebsocket.process` (`resp.d["..."]` dict accesses; a missing key is a
`KeyError`). -/
structure PayloadData where
  ssrc : Option Nat := none
  ip : Option String := none
  port : Option Nat := none
  modes : Option (List String) := none
  heartbeat_interval : Option Nat := none
  secret_key : Option (List Nat) := none
  deriving DecidableEq, Repr

/-- `GatewayResponse` (src/dico/model/gateway.py lines 101-109), restricted to
the two fields the voice websocket reads: `op` and `d`. -/
structure GatewayResponse where
  op : VoiceOpcode
  d : PayloadData := {}
  deriving DecidableEq, Repr

/-- Status of the asyncio heartbeat task held in `self._heartbeat_task`. -/
inductive TaskStatus
  | running       -- created and not yet finished
  | done          -- coroutine returned (run_heartbeat catches CancelledError)
  | cancelled     -- task.cancelled() is True
  deriving DecidableEq, Repr

/-- An outbound JSON frame sent with `ws.send_json` (field values may be the
Python `None`, hence the `Option`s). -/
inductive Frame
  | identify (server_id user_id session_id token : String)
  | resume (server_id session_id token : String)
  | selectProtocol (address : Option String) (port : Option Nat) (mode : Option String)
  | speaking (speaking : Nat) (delay : Nat) (ssrc : Option Nat)
  | heartbeat (d : Nat)
  deriving DecidableEq, Repr

/-- Kind of asyncio task spawned with `loop.create_task`. -/
inductive TaskKind
  | heartbeatTask
  | reconnectTask (fresh : Bool)   -- `self.reconnect()` scheduled from run_heartbeat
  deriving DecidableEq, Repr

/-- Observable effects of one embedded operation, in order. -/
inductive Effect
  | sendFrame (f : Frame)
  | logWarning (msg : String)
  | logInfo (msg : String)
  | sockClose                       -- self.sock.close()
  | wsClose (code : Option Nat)     -- await self.ws.close(code=...)
  | wsConnect                       -- session.ws_connect(self.endpoint, ...)
  | sockConnect (ip_discovery : Bool)  -- VoiceSocket.connect(self, ip_discovery=...)
  | createTask (t : TaskKind)       -- self.loop.create_task(...)
  deriving DecidableEq, Repr

/-- Modelled from the spec: `Encryptor.AVAILABLE` (src/dico/voice/encryptor.py
is not present under src/).  Per §8 of the spec the Cipher supports only
`xsalsa20_poly1305`. -/
def Encryptor.AVAILABLE : List String := ["xsalsa20_poly1305"]

/-- The mutable state of a `VoiceWebsocket` instance (constructor,
src/dico/voice/websocket.py lines 23-49), plus the observable closed-flag of
the aiohttp WebSocket it owns.  `keep_running` is the name-mangled
`self.__keep_running`. -/
structure VoiceWebsocket where
  wsClosed : Bool                   -- self.ws.closed
  wsCloseCode : Option Nat := none  -- self.ws.close_code
  guild_id : Nat
  user_id : Nat                     -- self.client.user.id
  token : String
  session_id : String
  keep_running : Bool := true
  ssrc : Option Nat := none
  ip : Option String := none
  port : Option Nat := none
  modes : Option (List String) := none
  heartbeat_interval : Option Nat := none
  reconnecting : Bool := false        -- self._reconnecting
  fresh_reconnecting : Bool := false  -- self._fresh_reconnecting
  last_heartbeat_ack : Nat := 0
  last_heartbeat_send : Nat := 0
  heartbeat_task : Option TaskStatus := none
  ping : Int := 0
  ping_start : Nat := 0
  mode : Option String := none
  sock : Bool := false              -- a Data Socket handle exists
  secret_key : Option (List Nat) := none
  self_ip : Option String := none
  self_port : Option Nat := none
  deriving DecidableEq, Repr

namespace VoiceWebsocket

/-- `AVAILABLE_MODES = Encryptor.AVAILABLE` (line 20). -/
def AVAILABLE_MODES : List String := Encryptor.AVAILABLE

/-- Python truthiness of an optional string (`None` and `""` are falsy). -/
def truthyStr : Option String → Bool
  | none => false
  | some s => !s.isEmpty

/-- Python truthiness of an optional integer (`None` and `0` are falsy). -/
def truthyNat : Option Nat → Bool
  | none => false
  | some n => n != 0

/-- `get_mode` (lines 51-52):
`[x for x in self.modes if x in self.AVAILABLE_MODES][0]`.
Iterating `None` raises `TypeError`; indexing an empty list raises
`IndexError`. -/
def get_mode (s : VoiceWebsocket) : Except PyError String :=
  match s.modes with
  | none => .error .typeError
  | some ms =>
    match ms.filter (fun x => AVAILABLE_MODES.contains x) with
    | [] => .error .indexError
    | m :: _ => .ok m

/-- Cancelling the heartbeat task: `run_heartbeat` catches
`asyncio.CancelledError` and returns, so a cancelled running task completes
normally (`task.cancelled()` stays False); cancelling a finished task is a
no-op. -/
def cancelResult : TaskStatus → TaskStatus
  | .running => .done
  | .done => .done
  | .cancelled => .cancelled

/-- `cancel_heartbeat` (lines 201-210).  `self._heartbeat_task.cancelled()`
raises `AttributeError` when `self._heartbeat_task` is `None`; if the task
reports cancelled the method returns at once, otherwise it zeroes both
heartbeat timestamps, cancels the task and awaits it. -/
def cancel_heartbeat (s : VoiceWebsocket) : Except PyError VoiceWebsocket :=
  match s.heartbeat_task with
  | none => .error .attributeError
  | some .cancelled => .ok s
  | some st =>
    .ok { s with last_heartbeat_ack := 0, last_heartbeat_send := 0,
                 heartbeat_task := some (cancelResult st) }

/-- `close` (lines 54-62): await `cancel_heartbeat`; return if
`__keep_running` is already False; close the Data Socket if one exists; close
the WebSocket if it is open; set `__keep_running = reconnect`. -/
def close (s : VoiceWebsocket) (code : Option Nat := some 1000)
    (reconnect : Bool := false) : Except PyError (VoiceWebsocket × List Effect) := do
  let s ← cancel_heartbeat s
  if !s.keep_running then
    return (s, [])
  let effs := (if s.sock then [Effect.sockClose] else [])
    ++ (if !s.wsClosed then [Effect.wsClose code] else [])
  return ({ s with wsClosed := true, keep_running := reconnect }, effs)

/-- `aiohttp.ClientWebSocketResponse.send_json`: sending on a closed or
closing websocket raises `ConnectionResetError`; otherwise the JSON frame goes
out. -/
def ws_send (s : VoiceWebsocket) (f : Frame) : Except PyError (List Effect) :=
  if s.wsClosed then .error .connectionReset else .ok [.sendFrame f]

/-- `identify` (lines 132-142): sends the IDENTIFY frame with
`server_id, user_id, session_id, token`; changes no state. -/
def identify (s : VoiceWebsocket) : Except PyError (VoiceWebsocket × List Effect) := do
  let e ← ws_send s (.identify (toString s.guild_id) (toString s.user_id) s.session_id s.token)
  return (s, e)

/-- `resume` (lines 144-154): sends the RESUME frame with
`server_id, session_id, token`, then clears `_reconnecting` (and only that
flag). -/
def resume (s : VoiceWebsocket) : Except PyError (VoiceWebsocket × List Effect) := do
  let e ← ws_send s (.resume (toString s.guild_id) s.session_id s.token)
  return ({ s with reconnecting := false }, e)

/-- `speaking` (lines 171-180): unconditionally sends the SPEAKING frame
`{speaking: flag if is_speaking else 0, delay: 0, ssrc: self.ssrc}`; no state
check and no acknowledgment. -/
def speaking (s : VoiceWebsocket) (speaking_flag : Nat) (is_speaking : Bool) :
    Except PyError (List Effect) :=
  ws_send s (.speaking (if is_speaking then speaking_flag else 0) 0 s.ssrc)

/-- `reconnect` (lines 121-130): if a reconnect of either kind is already in
flight, log and return untouched; otherwise cancel the heartbeat, set exactly
one of the two intent flags according to `fresh`, and close the websocket with
code 4000 and `reconnect=True` if it is still open. -/
def reconnect (s : VoiceWebsocket) (fresh : Bool := false) :
    Except PyError (VoiceWebsocket × List Effect) :=
  if s.reconnecting || s.fresh_reconnecting then
    .ok (s, [.logWarning "Reconnection is already running, but another reconnection is requested. This request is ignored."])
  else do
    let s ← cancel_heartbeat s
    let s := { s with reconnecting := !fresh, fresh_reconnecting := fresh }
    let effs := [Effect.logInfo "Reconnecting to Websocket..."]
    if !s.wsClosed then
      let (s, effs2) ← close s (some 4000) true
      return (s, effs ++ effs2)
    else
      return (s, effs)

/-- `set_self_ip` (lines 212-214). -/
def set_self_ip (s : VoiceWebsocket) (self_ip : String) (self_port : Nat) :
    VoiceWebsocket :=
  { s with self_ip := some self_ip, self_port := some self_port }

end VoiceWebsocket

/-- Modelled from the spec: `VoiceSocket.connect(voice_ws, ip_discovery=...)`
(src/dico/voice/voice_socket.py is not present under src/).  Per §4.2 the call
opens a fresh UDP socket; when `ip_discovery` is true it performs the
discovery handshake and supplies the discovered external address via
`set_self_ip` before returning; when false it leaves the recorded address
untouched.  `discovered` stands for the address the handshake would report. -/
def VoiceSocket.connect (s : VoiceWebsocket) (ip_discovery : Bool)
    (discovered : String × Nat) : VoiceWebsocket × List Effect :=
  if ip_discovery then
    (VoiceWebsocket.set_self_ip { s with sock := true } discovered.1 discovered.2,
     [.sockConnect true])
  else
    ({ s with sock := true }, [.sockConnect false])

namespace VoiceWebsocket

/-- Python dict access `d["key"]`: a missing key raises `KeyError`. -/
def dictGet {α : Type} : Option α → Except PyError α
  | some v => .ok v
  | none => .error .keyError

/-- `process` (lines 102-119), applied to the value returned by `receive`
(possibly Python `None`, whose `.op` access raises `AttributeError`).  `now`
is the `time.time()` sample taken in the HEARTBEAT_ACK branch; `discovered`
feeds the spec-modelled IP discovery in the READY branch. -/
def process (s : VoiceWebsocket) (resp : Option GatewayResponse) (now : Nat)
    (discovered : String × Nat) : Except PyError (VoiceWebsocket × List Effect) := do
  match resp with
  | none => .error .attributeError
  | some r =>
    match r.op with
    | .READY => do
      let ssrc ← dictGet r.d.ssrc
      let ip ← dictGet r.d.ip
      let port ← dictGet r.d.port
      let modes ← dictGet r.d.modes
      let s := { s with ssrc := some ssrc, ip := some ip, port := some port,
                        modes := some modes }
      let mode ← s.get_mode
      let s := { s with mode := some mode }
      let disc := !(truthyStr s.self_ip && truthyNat s.self_port)
      let (s, e1) := VoiceSocket.connect s disc discovered
      -- select_protocol (lines 156-169)
      let e2 ← ws_send s (.selectProtocol s.self_ip s.self_port s.mode)
      return (s, e1 ++ e2)
    | .HELLO => do
      let hi ← dictGet r.d.heartbeat_interval
      return ({ s with heartbeat_interval := some hi,
                       heartbeat_task := some .running },
              [.createTask .heartbeatTask])
    | .HEARTBEAT_ACK =>
      return ({ s with last_heartbeat_ack := now,
                       ping := (now : Int) - (s.ping_start : Int) }, [])
    | .SESSION_DESCRIPTION => do
      let k ← dictGet r.d.secret_key
      return ({ s with secret_key := some k }, [])
    | _ => return (s, [])

/-- Outcome of one iteration of the `run_heartbeat` loop body. -/
inductive HBStep
  | exitReconnecting   -- break because a reconnect is in flight
  | timeoutReconnect   -- timeout: warn, schedule reconnect(), break
  | sentBeat           -- heartbeat frame sent, loop continues after sleep
  deriving DecidableEq, Repr

/-- One iteration of the `while` body of `run_heartbeat` (lines 184-197).
`tCheck` is the `time.time()` in the timeout comparison, `tPingStart` the
sample stored in `_ping_start` just before the send, `tSendDone` the sample
stored in `last_heartbeat_send` after the send completes.  The scheduled
reconnect task is `self.reconnect()`: `fresh` defaults to `False`. -/
def run_heartbeat_step (s : VoiceWebsocket) (tCheck tPingStart tSendDone : Nat) :
    Except PyError (HBStep × VoiceWebsocket × List Effect) :=
  if s.reconnecting || s.fresh_reconnecting then
    .ok (.exitReconnecting, s, [])
  else if ¬(s.last_heartbeat_send ≤ s.last_heartbeat_ack ∧ s.last_heartbeat_ack ≤ tCheck) then
    -- the inner flag re-check (line 188) repeats the line-185 test, which was
    -- already false on this path
    .ok (.timeoutReconnect, s,
      [.logWarning "Heartbeat timeout, reconnecting...",
       .createTask (.reconnectTask false)])
  else do
    let s := { s with ping_start := tPingStart }
    let e ← ws_send s (.heartbeat 1501184119561)
    return (.sentBeat, { s with last_heartbeat_send := tSendDone }, e)

end VoiceWebsocket

/-- The inbound `aiohttp.WSMessage`, by type; `text` carries the parsed JSON
body, the three closing types carry their `data` field (the close code, or
`None`). -/
inductive WSMessage
  | text (resp : GatewayResponse)
  | binary
  | ping
  | pong
  | close (data : Option Nat)
  | closed (data : Option Nat)
  | closing (data : Option Nat)
  | continuation
  | error
  deriving DecidableEq, Repr

/-- Modelled from the spec: the control-flow exceptions `Ignore` and
`WSClosing` imported from `..ws.websocket` (not present under src/); `Ignore`
makes the receive loop `continue`, `WSClosing` carries the close code. -/
inductive RecvSignal
  | Ignore
  | WSClosing (code : Option Nat)
  deriving DecidableEq, Repr

namespace VoiceWebsocket

/-- Python `a or b` on optional integers (`None` and `0` are falsy). -/
def pyOrNat (a b : Option Nat) : Option Nat := if truthyNat a then a else b

/-- `receive` (lines 93-100): TEXT parses to a `GatewayResponse`;
CONTINUATION raises `Ignore`; CLOSE/CLOSED/CLOSING raise
`WSClosing(resp.data or self.ws.close_code)`; every other message type falls
off the end of the method and returns Python `None`. -/
def receive (s : VoiceWebsocket) :
    WSMessage → Except RecvSignal (Option GatewayResponse)
  | .text r => .ok (some r)
  | .continuation => .error .Ignore
  | .close d => .error (.WSClosing (pyOrNat d s.wsCloseCode))
  | .closed d => .error (.WSClosing (pyOrNat d s.wsCloseCode))
  | .closing d => .error (.WSClosing (pyOrNat d s.wsCloseCode))
  | _ => .ok none

/-- The `except WSClosing` handler in `run` (lines 76-86): codes 4006 and
4009 trigger a fresh reconnect, 4015 a resume reconnect, anything else closes
for good with the received code. -/
def handle_closing (s : VoiceWebsocket) (code : Option Nat) :
    Except PyError (VoiceWebsocket × List Effect) := do
  let logE := [Effect.logWarning "Voice websocket is closing"]
  if code = some 4006 ∨ code = some 4009 then
    let (s, e) ← reconnect s true
    return (s, logE ++ e)
  else if code = some 4015 then
    let (s, e) ← reconnect s false
    return (s, logE ++ e)
  else
    let (s, e) ← close s code false
    return (s, logE ++ e)

/-- The tail of the outer `run` loop (lines 88-91): with a reconnect of
either kind pending, a new websocket is opened on the same endpoint;
otherwise `__keep_running` is cleared and the loop ends. -/
def after_inner (s : VoiceWebsocket) : VoiceWebsocket × List Effect :=
  if s.reconnecting || s.fresh_reconnecting then
    ({ s with wsClosed := false, wsCloseCode := none }, [.wsConnect])
  else
    ({ s with keep_running := false }, [])

/-- The head of the outer `run` loop (lines 66-69): RESUME is sent if (and
only if) `_reconnecting` is set, IDENTIFY otherwise. -/
def session_start (s : VoiceWebsocket) : Except PyError (VoiceWebsocket × List Effect) :=
  if s.reconnecting then resume s else identify s

/-- The path `run` takes from a `WSClosing` exception to the first frame of
the next session: handle the close code, run the tail of the outer loop, and
(when the loop continues) send RESUME or IDENTIFY. -/
def reconnect_path (s : VoiceWebsocket) (code : Option Nat) :
    Except PyError (VoiceWebsocket × List Effect) := do
  let (s, e1) ← handle_closing s code
  let (s, e2) := after_inner s
  if s.keep_running then
    let (s, e3) ← session_start s
    return (s, e1 ++ e2 ++ e3)
  else
    return (s, e1 ++ e2)

end VoiceWebsocket

open VoiceWebsocket

/-- A concrete live channel used to instantiate the theorems: open websocket,
heartbeat running, no reconnect in flight. -/
def sBase : VoiceWebsocket :=
  { wsClosed := false, guild_id := 1, user_id := 2, token := "tok",
    session_id := "sess", heartbeat_task := some .running }

/-- `sBase` after its heartbeat has timed out: the last send (at tick 5) was
never acknowledged (the last ack is from tick 3). -/
def sTimedOut : VoiceWebsocket :=
  { sBase with last_heartbeat_send := 5, last_heartbeat_ack := 3 }

/-- The first match of `p` in the filtered list is `find?`. -/
theorem head?_filter_eq_find? {α : Type} (p : α → Bool) (l : List α) :
    (l.filter p).head? = l.find? p := by
  induction l with
  | nil => rfl
  | cons a t ih =>
    by_cases h : p a <;> simp [List.filter_cons, List.find?_cons, h, ih]

/-- On a live channel with a created heartbeat task, `reconnect` succeeds,
sets exactly the intent flag selected by `fresh`, keeps the channel runnable,
leaves the session identity and the recorded external address untouched, and
sends no frame and opens no data socket. -/
theorem reconnect_intent_ok (s : VoiceWebsocket) (st : TaskStatus) (fresh : Bool)
    (h1 : s.reconnecting = false) (h2 : s.fresh_reconnecting = false)
    (ht : s.heartbeat_task = some st) (hk : s.keep_running = true) :
    ∃ s' e, reconnect s fresh = .ok (s', e) ∧
      s'.reconnecting = !fresh ∧ s'.fresh_reconnecting = fresh ∧
      s'.keep_running = true ∧
      s'.guild_id = s.guild_id ∧ s'.user_id = s.user_id ∧
      s'.session_id = s.session_id ∧ s'.token = s.token ∧
      s'.self_ip = s.self_ip ∧ s'.self_port = s.self_port ∧
      (∀ f, Effect.sendFrame f ∉ e) ∧ (∀ b, Effect.sockConnect b ∉ e) := by
  cases st <;>
    by_cases hws : s.wsClosed <;>
      · simp only [VoiceWebsocket.reconnect, VoiceWebsocket.cancel_heartbeat,
          VoiceWebsocket.close, VoiceWebsocket.cancelResult, h1, h2, ht, hk,
          hws, bind, Except.bind, pure, Except.pure, Bool.false_or,
          Bool.or_self, Bool.not_false, Bool.not_true, if_true, if_false,
          ite_true, ite_false]
        refine ⟨_, _, rfl, ?_⟩
        simp_all

/-- Processing a well-formed READY payload on an open websocket: the channel
records ssrc/ip/port/modes, selects the first server-advertised mode the
Cipher supports, opens a new data socket that performs IP discovery exactly
when no external address was previously recorded, and sends SELECT_PROTOCOL
with the selected mode. -/
theorem process_ready_ok (t : VoiceWebsocket) (r : GatewayResponse) (now : Nat)
    (dv : String × Nat) (ssrc port : Nat) (ip : String) (modes : List String)
    (m : String) (hop : r.op = .READY)
    (h1 : r.d.ssrc = some ssrc) (h2 : r.d.ip = some ip)
    (h3 : r.d.port = some port) (h4 : r.d.modes = some modes)
    (hw : t.wsClosed = false)
    (hm : modes.find? (fun x => AVAILABLE_MODES.contains x) = some m) :
    ∃ t' e, process t (some r) now dv = .ok (t', e) ∧
      t'.ssrc = some ssrc ∧ t'.ip = some ip ∧ t'.port = some port ∧
      t'.modes = some modes ∧ t'.mode = some m ∧ t'.sock = true ∧
      t'.fresh_reconnecting = t.fresh_reconnecting ∧
      t'.reconnecting = t.reconnecting ∧
      e = [.sockConnect (!(truthyStr t.self_ip && truthyNat t.self_port)),
           .sendFrame (.selectProtocol t'.self_ip t'.self_port (some m))] := by
  obtain ⟨tl, hfil⟩ : ∃ tl,
      modes.filter (fun x => AVAILABLE_MODES.contains x) = m :: tl := by
    have hh := head?_filter_eq_find? (fun x => AVAILABLE_MODES.contains x) modes
    rw [hm] at hh
    cases hc : modes.filter (fun x => AVAILABLE_MODES.contains x) with
    | nil => rw [hc] at hh; simp at hh
    | cons a tl =>
      rw [hc] at hh
      simp only [List.head?_cons, Option.some.injEq] at hh
      exact ⟨tl, by rw [hh]⟩
  by_cases hd : (truthyStr t.self_ip && truthyNat t.self_port) = true <;>
    · simp only [VoiceWebsocket.process, VoiceWebsocket.dictGet,
        VoiceWebsocket.get_mode, VoiceSocket.connect,
        VoiceWebsocket.set_self_ip, VoiceWebsocket.ws_send, hop, h1, h2, h3,
        h4, hfil, bind, Except.bind, pure, Except.pure]
      simp only [hd, hw, Bool.not_true, Bool.not_false, ite_true, ite_false,
        if_true, if_false, Bool.false_eq_true, Bool.true_eq_false]
      refine ⟨_, _, rfl, ?_⟩
      simp_all

/-- `process` never touches the two reconnect-intent flags: whatever opcode
arrives, the flags survive unchanged. -/
theorem process_preserves_intent_flags (s : VoiceWebsocket)
    (resp : Option GatewayResponse) (now : Nat) (dv : String × Nat)
    (s' : VoiceWebsocket) (e : List Effect)
    (hp : process s resp now dv = .ok (s', e)) :
    s'.fresh_reconnecting = s.fresh_reconnecting ∧
    s'.reconnecting = s.reconnecting := by
  rcases resp with _ | ⟨op, pd⟩
  · simp [VoiceWebsocket.process] at hp
  · cases op <;>
      · simp only [VoiceWebsocket.process, VoiceWebsocket.dictGet,
          VoiceWebsocket.get_mode, VoiceSocket.connect,
          VoiceWebsocket.set_self_ip, VoiceWebsocket.ws_send, bind,
          Except.bind, pure, Except.pure] at hp
        repeat' split at hp
        all_goals
          first
          | (exact Except.noConfusion hp)
          | (rw [Except.ok.injEq, Prod.mk.injEq] at hp
             obtain ⟨hs, he⟩ := hp
             subst hs
             exact ⟨rfl, rfl⟩)

/-- `close` and `cancel_heartbeat` never touch the two reconnect-intent
flags. -/
theorem close_preserves_intent_flags (s : VoiceWebsocket) (c : Option Nat)
    (rc : Bool) (s' : VoiceWebsocket) (e : List Effect)
    (hp : close s c rc = .ok (s', e)) :
    s'.fresh_reconnecting = s.fresh_reconnecting ∧
    s'.reconnecting = s.reconnecting := by
  rcases hht : s.heartbeat_task with _ | st
  case none =>
    simp only [VoiceWebsocket.close, VoiceWebsocket.cancel_heartbeat, hht,
      bind, Except.bind] at hp
    exact Except.noConfusion hp
  case some =>
    cases st <;>
      · simp only [VoiceWebsocket.close, VoiceWebsocket.cancel_heartbeat, hht,
          bind, Except.bind, pure, Except.pure] at hp
        repeat' split at hp
        all_goals
          first
          | (exact Except.noConfusion hp)
          | (rw [Except.ok.injEq, Prod.mk.injEq] at hp
             obtain ⟨hs, he⟩ := hp
             subst hs
             exact ⟨rfl, rfl⟩)

/-- C1 (counterexample): on a heartbeat timeout the loop schedules
`self.reconnect()` with the default `fresh=False` — a *resume* reconnect, not
the fresh reconnect the claim states: executing the scheduled call leaves
`_fresh_reconnecting` False and sets `_reconnecting` True. -/
theorem C1_counterexample :
    run_heartbeat_step sTimedOut 10 11 12 =
      .ok (.timeoutReconnect, sTimedOut,
        [.logWarning "Heartbeat timeout, reconnecting...",
         .createTask (.reconnectTask false)]) ∧
    (reconnect sTimedOut false).toOption.map
        (fun p => (p.1.fresh_reconnecting, p.1.reconnecting)) = some (false, true) :=
  ⟨rfl, rfl⟩

/-- C1 (amended): on a heartbeat timer tick with no reconnect in flight and
the previous heartbeat unacknowledged (ack timestamp not between the last
send timestamp and now), the loop stops and schedules exactly one *resume*
reconnect (`reconnect()` with `fresh=False`), leaving the state untouched. -/
theorem C1_heartbeat_timeout_triggers_resume_reconnect_once
    (s : VoiceWebsocket) (tc t1 t2 : Nat)
    (h1 : s.reconnecting = false) (h2 : s.fresh_reconnecting = false)
    (h3 : ¬(s.last_heartbeat_send ≤ s.last_heartbeat_ack ∧ s.last_heartbeat_ack ≤ tc)) :
    run_heartbeat_step s tc t1 t2 =
      .ok (.timeoutReconnect, s,
        [.logWarning "Heartbeat timeout, reconnecting...",
         .createTask (.reconnectTask false)]) := by
  unfold VoiceWebsocket.run_heartbeat_step
  rw [h1, h2]
  simp [h3]

/-- C1 witness: the timeout theorem applied to `sTimedOut` at tick 10. -/
theorem C1_heartbeat_timeout_witness :
    run_heartbeat_step sTimedOut 10 11 12 =
      .ok (.timeoutReconnect, sTimedOut,
        [.logWarning "Heartbeat timeout, reconnecting...",
         .createTask (.reconnectTask false)]) :=
  C1_heartbeat_timeout_triggers_resume_reconnect_once sTimedOut 10 11 12
    rfl rfl (by decide)

/-- C5: while a reconnect of either kind is in flight, a second `reconnect`
request of either kind only logs a warning and returns with the state
completely unchanged — it never raises. -/
theorem C5_double_reconnect_is_logged_noop (s : VoiceWebsocket) (fresh : Bool)
    (h : s.reconnecting = true ∨ s.fresh_reconnecting = true) :
    reconnect s fresh =
      .ok (s, [.logWarning "Reconnection is already running, but another reconnection is requested. This request is ignored."]) := by
  unfold VoiceWebsocket.reconnect
  rcases h with h | h <;> simp [h]

/-- C5 witness: a fresh-reconnect request while a resume reconnect is in
flight is dropped. -/
theorem C5_double_reconnect_witness :
    reconnect { sBase with reconnecting := true } true =
      .ok ({ sBase with reconnecting := true },
        [.logWarning "Reconnection is already running, but another reconnection is requested. This request is ignored."]) :=
  C5_double_reconnect_is_logged_noop { sBase with reconnecting := true } true
    (Or.inl rfl)

/-- C7 (counterexample): `speaking` performs no state check; with the
websocket closed (a state that is certainly not `Ready`) the send raises
`ConnectionResetError` instead of failing silently. -/
theorem C7_counterexample :
    speaking { sBase with wsClosed := true } 1 true = .error .connectionReset :=
  rfl

/-- C7 (amended): whenever the websocket is open — `Ready` or not —
`speaking` unconditionally sends the SPEAKING frame with fields
`speaking = flag if is_speaking else 0`, `delay = 0` and the recorded `ssrc`,
and expects no acknowledgment; when the websocket is closed the send raises. -/
theorem C7_speaking_fire_and_forget (s : VoiceWebsocket) (flag : Nat) (b : Bool)
    (hw : s.wsClosed = false) :
    speaking s flag b =
      .ok [.sendFrame (.speaking (if b then flag else 0) 0 s.ssrc)] := by
  unfold VoiceWebsocket.speaking VoiceWebsocket.ws_send
  rw [hw]
  simp

/-- C7 witness: on the open base channel, `speaking(3, False)` sends the
frame `{speaking: 0, delay: 0, ssrc: None}`. -/
theorem C7_speaking_witness :
    speaking sBase 3 false = .ok [.sendFrame (.speaking 0 0 none)] :=
  C7_speaking_fire_and_forget sBase 3 false rfl

/-- A READY payload whose advertised modes list the spec scenario's two
modes, first the one the Cipher lacks, then the one it supports. -/
def rReady : GatewayResponse :=
  { op := .READY,
    d := { ssrc := some 7, ip := some "5.6.7.8", port := some 4321,
           modes := some ["aead_xchacha20_poly1305_rtpsize", "xsalsa20_poly1305"] } }

/-- C3: on opcode READY the channel records SSRC, IP, port and the server's
mode list, and selects the first advertised mode the Cipher supports (server
order, i.e. `List.find?` over the advertised list); with no supported mode
the connection attempt dies with an IndexError; in the spec scenario the
selected mode is xsalsa20_poly1305. -/
theorem C3_ready_records_and_selects_first_supported_mode
    (t : VoiceWebsocket) (r : GatewayResponse) (now : Nat) (dv : String × Nat)
    (ssrc port : Nat) (ip : String) (modes : List String)
    (hop : r.op = .READY) (h1 : r.d.ssrc = some ssrc) (h2 : r.d.ip = some ip)
    (h3 : r.d.port = some port) (h4 : r.d.modes = some modes)
    (hw : t.wsClosed = false) :
    (∀ m, modes.find? (fun x => AVAILABLE_MODES.contains x) = some m →
      ∃ t' e, process t (some r) now dv = .ok (t', e) ∧
        t'.ssrc = some ssrc ∧ t'.ip = some ip ∧ t'.port = some port ∧
        t'.modes = some modes ∧ t'.mode = some m) ∧
    (modes.find? (fun x => AVAILABLE_MODES.contains x) = none →
      process t (some r) now dv = .error .indexError) ∧
    get_mode { t with modes := some ["aead_xchacha20_poly1305_rtpsize", "xsalsa20_poly1305"] }
      = .ok "xsalsa20_poly1305" := by
  refine ⟨?_, ?_, rfl⟩
  · intro m hm
    obtain ⟨t', e, hob⟩ :=
      process_ready_ok t r now dv ssrc port ip modes m hop h1 h2 h3 h4 hw hm
    exact ⟨t', e, hob.1, hob.2.1, hob.2.2.1, hob.2.2.2.1, hob.2.2.2.2.1,
      hob.2.2.2.2.2.1⟩
  · intro hm
    have hfil : modes.filter (fun x => AVAILABLE_MODES.contains x) = [] := by
      have hh := head?_filter_eq_find? (fun x => AVAILABLE_MODES.contains x) modes
      rw [hm] at hh
      exact List.head?_eq_none_iff.mp hh
    simp only [VoiceWebsocket.process, VoiceWebsocket.dictGet,
      VoiceWebsocket.get_mode, hop, h1, h2, h3, h4, bind, Except.bind]
    rw [hfil]

/-- C3 witness: the spec scenario payload on the live base channel selects
xsalsa20_poly1305 while recording ssrc 7, ip 5.6.7.8, port 4321. -/
theorem C3_ready_mode_selection_witness :
    ∃ t' e, process sBase (some rReady) 0 ("9.9.9.9", 1) = .ok (t', e) ∧
      t'.ssrc = some 7 ∧ t'.ip = some "5.6.7.8" ∧ t'.port = some 4321 ∧
      t'.modes = some ["aead_xchacha20_poly1305_rtpsize", "xsalsa20_poly1305"] ∧
      t'.mode = some "xsalsa20_poly1305" :=
  (C3_ready_records_and_selects_first_supported_mode sBase rReady 0
      ("9.9.9.9", 1) 7 4321 "5.6.7.8" _ rfl rfl rfl rfl rfl rfl).1
    "xsalsa20_poly1305" (by decide)

/-- C4: after a transport close with code 4015 the reconnect sends a RESUME
frame carrying the existing server id, session id and token, sends no
IDENTIFY, and opens no data socket (hence no IP discovery). -/
theorem C4_resumable_code_resumes_without_discovery
    (s : VoiceWebsocket) (st : TaskStatus)
    (h1 : s.reconnecting = false) (h2 : s.fresh_reconnecting = false)
    (ht : s.heartbeat_task = some st) (hk : s.keep_running = true) :
    ∃ s' e, reconnect_path s (some 4015) = .ok (s', e) ∧
      Effect.sendFrame (.resume (toString s.guild_id) s.session_id s.token) ∈ e ∧
      (∀ a b c d, Effect.sendFrame (.identify a b c d) ∉ e) ∧
      (∀ b, Effect.sockConnect b ∉ e) ∧
      s'.reconnecting = false ∧
      s'.session_id = s.session_id ∧ s'.token = s.token := by
  cases st <;> by_cases hws : s.wsClosed <;> by_cases hsock : s.sock <;>
    · simp only [VoiceWebsocket.reconnect_path, VoiceWebsocket.handle_closing,
        VoiceWebsocket.reconnect, VoiceWebsocket.cancel_heartbeat,
        VoiceWebsocket.close, VoiceWebsocket.cancelResult,
        VoiceWebsocket.after_inner, VoiceWebsocket.session_start,
        VoiceWebsocket.resume, VoiceWebsocket.identify, VoiceWebsocket.ws_send,
        h1, h2, ht, hk, hws, hsock, bind, Except.bind, pure, Except.pure]
      norm_num
      refine ⟨_, _, ⟨rfl, rfl⟩, ?_, ?_, ?_, rfl, rfl, rfl⟩
      · simp
      · intro a b c d hm
        simp at hm
      · constructor <;> simp

/-- C4 witness: the resumable-close theorem applied to the live base
channel. -/
theorem C4_resumable_witness :
    ∃ s' e, reconnect_path sBase (some 4015) = .ok (s', e) ∧
      Effect.sendFrame (.resume (toString sBase.guild_id) sBase.session_id
        sBase.token) ∈ e ∧
      (∀ a b c d, Effect.sendFrame (.identify a b c d) ∉ e) ∧
      (∀ b, Effect.sockConnect b ∉ e) ∧
      s'.reconnecting = false ∧
      s'.session_id = sBase.session_id ∧ s'.token = sBase.token :=
  C4_resumable_code_resumes_without_discovery sBase .running rfl rfl rfl rfl

/-- A channel that has completed a first connection: data socket open and an
external address already discovered and recorded. -/
def sConnected : VoiceWebsocket :=
  { sBase with sock := true, ssrc := some 7, self_ip := some "1.2.3.4",
               self_port := some 50000, mode := some "xsalsa20_poly1305",
               modes := some ["xsalsa20_poly1305"] }

/-- The READY payload of the session that follows a reconnect. -/
def rReady2 : GatewayResponse :=
  { op := .READY,
    d := { ssrc := some 8, ip := some "5.6.7.8", port := some 4321,
           modes := some ["xsalsa20_poly1305"] } }

/-- C2 (counterexample): after a close with code 4006 on a channel that had
already discovered its external address, the reconnect does send IDENTIFY,
but the READY of the new session creates the new data socket with
`ip_discovery=False` (the recorded `self_ip`/`self_port` are never cleared),
so IP discovery is *not* performed again. -/
theorem C2_counterexample :
    (((reconnect_path sConnected (some 4006)).toOption.bind
        (fun p => (process p.1 (some rReady2) 0 ("8.8.8.8", 9)).toOption)).map
      (fun q => (decide (Effect.sockConnect true ∈ q.2),
                 decide (Effect.sockConnect false ∈ q.2)))) = some (false, true) ∧
    ((reconnect_path sConnected (some 4006)).toOption.map
      (fun p => decide (Effect.sendFrame
        (.identify "1" "2" "sess" "tok") ∈ p.2))) = some true := ⟨rfl, rfl⟩

set_option maxHeartbeats 2000000 in
/-- C2 (amended): after a transport close with code 4006 or 4009 the
reconnect sends IDENTIFY (never RESUME) on a freshly opened websocket and
sets the fresh-reconnect intent; the next READY creates a new data socket,
but IP discovery is performed on it only when no external address was
previously recorded (`self_ip`/`self_port` falsy) — a recorded address is
reused and discovery is skipped. -/
theorem C2_fresh_code_identify_discovery_only_if_unset
    (s : VoiceWebsocket) (st : TaskStatus) (code : Nat)
    (hcode : code = 4006 ∨ code = 4009)
    (h1 : s.reconnecting = false) (h2 : s.fresh_reconnecting = false)
    (ht : s.heartbeat_task = some st) (hk : s.keep_running = true) :
    ∃ s' e, reconnect_path s (some code) = .ok (s', e) ∧
      Effect.sendFrame (.identify (toString s.guild_id) (toString s.user_id)
        s.session_id s.token) ∈ e ∧
      (∀ a b c, Effect.sendFrame (.resume a b c) ∉ e) ∧
      (∀ b, Effect.sockConnect b ∉ e) ∧
      s'.fresh_reconnecting = true ∧ s'.reconnecting = false ∧
      s'.wsClosed = false ∧
      s'.self_ip = s.self_ip ∧ s'.self_port = s.self_port ∧
      (∀ r now dv ssrc port ip modes m,
        r.op = .READY → r.d.ssrc = some ssrc → r.d.ip = some ip →
        r.d.port = some port → r.d.modes = some modes →
        modes.find? (fun x => AVAILABLE_MODES.contains x) = some m →
        ∃ s'' e', process s' (some r) now dv = .ok (s'', e') ∧
          Effect.sockConnect (!(truthyStr s.self_ip && truthyNat s.self_port)) ∈ e') := by
  rcases hcode with hc | hc <;> subst hc <;>
    cases st <;> by_cases hws : s.wsClosed <;> by_cases hsock : s.sock <;>
      · simp only [VoiceWebsocket.reconnect_path, VoiceWebsocket.handle_closing,
          VoiceWebsocket.reconnect, VoiceWebsocket.cancel_heartbeat,
          VoiceWebsocket.close, VoiceWebsocket.cancelResult,
          VoiceWebsocket.after_inner, VoiceWebsocket.session_start,
          VoiceWebsocket.resume, VoiceWebsocket.identify, VoiceWebsocket.ws_send,
          h1, h2, ht, hk, hws, hsock, bind, Except.bind, pure, Except.pure]
        norm_num
        refine ⟨_, _, ⟨rfl, rfl⟩, ?_, ?_, ?_, rfl, rfl, rfl, rfl, rfl, ?_⟩
        · simp
        · intro a b c hm
          simp at hm
        · constructor <;> simp
        · intro r now dv1 dv2 ssrc port ip modes m hop hr1 hr2 hr3 hr4 hfind
          have hfind' : modes.find? (fun x => AVAILABLE_MODES.contains x)
              = some m := by simpa using hfind
          obtain ⟨tl, hfil⟩ : ∃ tl,
              modes.filter (fun x => AVAILABLE_MODES.contains x) = m :: tl := by
            have hh := head?_filter_eq_find?
              (fun x => AVAILABLE_MODES.contains x) modes
            rw [hfind'] at hh
            cases hc : modes.filter (fun x => AVAILABLE_MODES.contains x) with
            | nil => rw [hc] at hh; simp at hh
            | cons a tl =>
              rw [hc] at hh
              simp only [List.head?_cons, Option.some.injEq] at hh
              exact ⟨tl, by rw [hh]⟩
          have hfilD : List.filter (fun x => decide (x ∈ AVAILABLE_MODES)) modes
              = m :: tl := by simpa using hfil
          by_cases hd1 : truthyStr s.self_ip = true <;>
            by_cases hd2 : truthyNat s.self_port = true <;>
              simp [VoiceWebsocket.process, VoiceWebsocket.dictGet,
                VoiceWebsocket.get_mode, VoiceSocket.connect,
                VoiceWebsocket.set_self_ip, VoiceWebsocket.ws_send, hop, hr1,
                hr2, hr3, hr4, hfilD, hd1, hd2, bind, Except.bind, pure,
                Except.pure] <;>
                exact ⟨_, _, ⟨rfl, rfl⟩, by simp⟩

/-- C2 witness: on the base channel, which has never discovered an external
address, a 4006 close leads to IDENTIFY and (on the next READY) to a data
socket with IP discovery enabled. -/
theorem C2_fresh_code_witness :
    ∃ s' e, reconnect_path sBase (some 4006) = .ok (s', e) ∧
      Effect.sendFrame (.identify (toString sBase.guild_id)
        (toString sBase.user_id) sBase.session_id sBase.token) ∈ e ∧
      (∀ a b c, Effect.sendFrame (.resume a b c) ∉ e) ∧
      (∀ b, Effect.sockConnect b ∉ e) ∧
      s'.fresh_reconnecting = true ∧ s'.reconnecting = false ∧
      s'.wsClosed = false ∧
      s'.self_ip = sBase.self_ip ∧ s'.self_port = sBase.self_port ∧
      (∀ r now dv ssrc port ip modes m,
        r.op = .READY → r.d.ssrc = some ssrc → r.d.ip = some ip →
        r.d.port = some port → r.d.modes = some modes →
        modes.find? (fun x => AVAILABLE_MODES.contains x) = some m →
        ∃ s'' e', process s' (some r) now dv = .ok (s'', e') ∧
          Effect.sockConnect
            (!(truthyStr sBase.self_ip && truthyNat sBase.self_port)) ∈ e') :=
  C2_fresh_code_identify_discovery_only_if_unset sBase .running 4006
    (Or.inl rfl) rfl rfl rfl rfl

/-- C6 (counterexample): on a channel whose heartbeat task was never created
(`_heartbeat_task is None`) — for instance one whose websocket is already
closed — `close` raises `AttributeError` instead of being a no-op. -/
theorem C6_counterexample :
    close { sBase with heartbeat_task := none, wsClosed := true,
                       keep_running := false } (some 1000) false
      = .error .attributeError := rfl

/-- C6 (amended): provided a heartbeat task exists, the first `close` on a
live channel cancels the heartbeat task (awaiting it), closes the Data
Socket if one exists, closes the WebSocket if open and clears
`__keep_running`; a second `close` on the result changes nothing, produces
no effect and never raises. -/
theorem C6_close_idempotent_when_task_exists (s : VoiceWebsocket)
    (st : TaskStatus) (c c' : Option Nat)
    (ht : s.heartbeat_task = some st) (hk : s.keep_running = true) :
    ∃ s1, close s c false = .ok (s1,
        (if s.sock then [Effect.sockClose] else [])
          ++ (if !s.wsClosed then [Effect.wsClose c] else [])) ∧
      s1.keep_running = false ∧ s1.wsClosed = true ∧
      close s1 c' false = .ok (s1, []) := by
  cases st <;>
    · simp only [VoiceWebsocket.close, VoiceWebsocket.cancel_heartbeat,
        VoiceWebsocket.cancelResult, ht, hk, bind, Except.bind, pure,
        Except.pure, Bool.not_true, Bool.not_false, if_true, if_false,
        ite_true, ite_false]
      refine ⟨_, rfl, rfl, rfl, ?_⟩
      simp [VoiceWebsocket.close, VoiceWebsocket.cancel_heartbeat,
        VoiceWebsocket.cancelResult, ht, bind, Except.bind, pure, Except.pure]

/-- C6 witness: closing the base channel (with a data socket) emits exactly
the socket close and the websocket close, and a repeated close is a silent
no-op. -/
theorem C6_close_idempotent_witness :
    ∃ s1, close { sBase with sock := true } (some 1000) false =
        .ok (s1, [Effect.sockClose, Effect.wsClose (some 1000)]) ∧
      s1.keep_running = false ∧ s1.wsClosed = true ∧
      close s1 (some 1000) false = .ok (s1, []) :=
  C6_close_idempotent_when_task_exists { sBase with sock := true } .running
    (some 1000) (some 1000) rfl rfl

/-- C8: on HEARTBEAT_ACK the channel records the ack timestamp and computes
the round-trip latency as the ack time minus the timestamp sampled when the
most recent heartbeat frame was sent (`_ping_start`). -/
theorem C8_ack_records_timestamp_and_latency (s : VoiceWebsocket)
    (tc t1 t2 t3 : Nat) (r : GatewayResponse) (dv : String × Nat)
    (h1 : s.reconnecting = false) (h2 : s.fresh_reconnecting = false)
    (h3 : s.last_heartbeat_send ≤ s.last_heartbeat_ack)
    (h4 : s.last_heartbeat_ack ≤ tc) (hw : s.wsClosed = false)
    (hop : r.op = .HEARTBEAT_ACK) :
    ∃ s', run_heartbeat_step s tc t1 t2 =
        .ok (.sentBeat, s', [.sendFrame (.heartbeat 1501184119561)]) ∧
      s'.ping_start = t1 ∧ s'.last_heartbeat_send = t2 ∧
      process s' (some r) t3 dv =
        .ok ({ s' with last_heartbeat_ack := t3,
                       ping := (t3 : Int) - (t1 : Int) }, []) := by
  refine ⟨{ s with ping_start := t1, last_heartbeat_send := t2 }, ?_, rfl, rfl, ?_⟩
  · simp [VoiceWebsocket.run_heartbeat_step, VoiceWebsocket.ws_send, h1, h2,
      h3, h4, hw, bind, Except.bind, pure, Except.pure]
  · simp [VoiceWebsocket.process, hop, pure, Except.pure]

/-- C8 witness: a heartbeat sent at tick 4 and acknowledged at tick 9 yields
ping 5. -/
theorem C8_ack_latency_witness :
    ∃ s', run_heartbeat_step sBase 0 4 5 =
        .ok (.sentBeat, s', [.sendFrame (.heartbeat 1501184119561)]) ∧
      s'.ping_start = 4 ∧ s'.last_heartbeat_send = 5 ∧
      process s' (some ⟨.HEARTBEAT_ACK, {}⟩) 9 ("", 0) =
        .ok ({ s' with last_heartbeat_ack := 9,
                       ping := (9 : Int) - (4 : Int) }, []) :=
  C8_ack_records_timestamp_and_latency sBase 0 4 5 9 ⟨.HEARTBEAT_ACK, {}⟩
    ("", 0) rfl rfl (by decide) (by decide) rfl rfl

/-- A channel on which a fresh reconnect has been initiated. -/
def sFresh : VoiceWebsocket := { sBase with fresh_reconnecting := true }

/-- C9: once `_fresh_reconnecting` is set it is never cleared: `reconnect`
drops every further request unchanged, `resume` clears only `_reconnecting`,
`identify` changes nothing, `process` and `close` preserve the flag, the
run-loop tail preserves it, and a heartbeat loop started afterwards exits on
its first iteration without sending a frame. -/
theorem C9_fresh_reconnect_flag_sticky (s : VoiceWebsocket)
    (h : s.fresh_reconnecting = true) :
    (∀ fresh, reconnect s fresh = .ok (s,
      [.logWarning "Reconnection is already running, but another reconnection is requested. This request is ignored."])) ∧
    (∀ s' e, resume s = .ok (s', e) → s' = { s with reconnecting := false }) ∧
    (∀ s' e, identify s = .ok (s', e) → s' = s) ∧
    (∀ tc t1 t2, run_heartbeat_step s tc t1 t2 = .ok (.exitReconnecting, s, [])) ∧
    (∀ resp now dv s' e, process s resp now dv = .ok (s', e) →
      s'.fresh_reconnecting = true) ∧
    (∀ c rc s' e, close s c rc = .ok (s', e) → s'.fresh_reconnecting = true) ∧
    (after_inner s).1.fresh_reconnecting = true := by
  refine ⟨?_, ?_, ?_, ?_, ?_, ?_, ?_⟩
  · intro fresh
    simp [VoiceWebsocket.reconnect, h]
  · intro s' e hp
    simp only [VoiceWebsocket.resume, VoiceWebsocket.ws_send, bind,
      Except.bind, pure, Except.pure] at hp
    split at hp
    · exact Except.noConfusion hp
    · rw [Except.ok.injEq, Prod.mk.injEq] at hp
      exact hp.1.symm
  · intro s' e hp
    simp only [VoiceWebsocket.identify, VoiceWebsocket.ws_send, bind,
      Except.bind, pure, Except.pure] at hp
    split at hp
    · exact Except.noConfusion hp
    · rw [Except.ok.injEq, Prod.mk.injEq] at hp
      exact hp.1.symm
  · intro tc t1 t2
    simp [VoiceWebsocket.run_heartbeat_step, h]
  · intro resp now dv s' e hp
    exact ((process_preserves_intent_flags s resp now dv s' e hp).1).trans h
  · intro c rc s' e hp
    exact ((close_preserves_intent_flags s c rc s' e hp).1).trans h
  · simp [VoiceWebsocket.after_inner, h]

/-- C9 witness: on a channel mid-fresh-reconnect, a reconnect request is a
logged no-op and a heartbeat iteration exits at once without sending. -/
theorem C9_fresh_flag_sticky_witness :
    reconnect sFresh false = .ok (sFresh,
      [.logWarning "Reconnection is already running, but another reconnection is requested. This request is ignored."]) ∧
    run_heartbeat_step sFresh 10 11 12 = .ok (.exitReconnecting, sFresh, []) :=
  ⟨(C9_fresh_reconnect_flag_sticky sFresh rfl).1 false,
   (C9_fresh_reconnect_flag_sticky sFresh rfl).2.2.2.1 10 11 12⟩

/-- C10: BINARY, PING and ERROR messages make `receive` fall through and
return Python `None`, and `process` applied to that `None` dereferences its
`op` field and raises `AttributeError` instead of ignoring the message. -/
theorem C10_unhandled_message_kinds_crash_process
    (s : VoiceWebsocket) (now : Nat) (d : String × Nat) :
    receive s .binary = .ok none ∧
    receive s .ping = .ok none ∧
    receive s .error = .ok none ∧
    process s none now d = .error .attributeError :=
  ⟨rfl, rfl, rfl, rfl⟩

end Dico
